import Mathlib

/-!
Shallow embedding of the player-aggregation and volume-resolution core of the
`cosmic-applet-music-player` applet, translated from
`src/music-player/src/music.rs`, `src/music-player/src/audio.rs` and the
album-art fetching part of `src/music-player/src/app.rs`.

External effects (the MPRIS bus, the `pactl` subprocess, the filesystem and
the HTTP client) are modelled as explicit environment values: a `Session`
records the answers the bus would give for one player, an `AudioEnv` records
the current mixer map together with the outcomes of the `pactl` invocations,
and an `FsEnv` records the canonicalizer, file reader and fetcher.  `f64`
values are embedded as `ℚ`; machine strings are manipulated through their
underlying character lists so that every definition evaluates by kernel
reduction.
-/

/-! ### Character-list counterparts of the Rust `str` operations used -/

/-- Rust `str::to_lowercase`, modelled per character. -/
def lowerChars (s : String) : List Char := s.data.map Char.toLower

/-- Rust `str::contains` (substring test): `hasSubstr needle hay`. -/
def hasSubstr (needle : List Char) : List Char → Bool
  | [] => needle.isEmpty
  | c :: rest => needle.isPrefixOf (c :: rest) || hasSubstr needle rest

/-- Lexicographic `≤` on character lists by code point, the order Rust's
`Ord for String` induces (UTF-8 byte order coincides with code-point order). -/
def lexLe : List Char → List Char → Bool
  | [], _ => true
  | _ :: _, [] => false
  | a :: as, b :: bs =>
    if a.toNat < b.toNat then true
    else if b.toNat < a.toNat then false
    else lexLe as bs

/-- Rust `str::trim`. -/
def trimChars (s : List Char) : List Char :=
  ((s.dropWhile Char.isWhitespace).reverse.dropWhile Char.isWhitespace).reverse

/-- Split a character stream at newline characters; Rust `str::lines` up to a
possible final empty line, which every caller ignores. -/
def splitLinesAux : List Char → List Char → List (List Char)
  | acc, [] => [acc.reverse]
  | acc, '\n' :: rest => acc.reverse :: splitLinesAux [] rest
  | acc, c :: rest => splitLinesAux (c :: acc) rest

/-- Rust `str::lines` as used by the sink-input parser. -/
def splitLines (s : List Char) : List (List Char) := splitLinesAux [] s

/-- Rust `str::strip_prefix`. -/
def stripPre (pre s : List Char) : Option (List Char) :=
  if pre.isPrefixOf s then some (s.drop pre.length) else none

/-- Rust `str::strip_suffix`. -/
def stripSuf (suf s : List Char) : Option (List Char) :=
  if suf.isSuffixOf s then some (s.take (s.length - suf.length)) else none

/-- Numeric value of a digit string. -/
def digitsVal (s : List Char) : Nat :=
  s.foldl (fun acc c => acc * 10 + (c.toNat - 48)) 0

/-- Rust `str::parse::<u32>` restricted to plain digit strings (the optional
leading `+` accepted by Rust is not modelled; `pactl` indices are bare digits). -/
def charsToNat? (s : List Char) : Option Nat :=
  if !s.isEmpty && s.all Char.isDigit then some (digitsVal s) else none

/-- Rust `str::parse::<f64>` restricted to finite decimal literals without an
exponent (the forms `pactl` emits for volume percentages). -/
def parseUnsignedDecimal (s : List Char) : Option ℚ :=
  let ip := s.takeWhile Char.isDigit
  let rest := s.drop ip.length
  match rest with
  | [] => if ip.isEmpty then none else some ((digitsVal ip : ℚ))
  | '.' :: fp =>
    if fp.all Char.isDigit && (!ip.isEmpty || !fp.isEmpty) then
      some ((digitsVal ip : ℚ) + (digitsVal fp : ℚ) / ((10 : ℚ) ^ fp.length))
    else none
  | _ => none

/-- Signed decimal parsing, wrapping `parseUnsignedDecimal`. -/
def parseDecimalChars (s : List Char) : Option ℚ :=
  match s with
  | '-' :: rest => (parseUnsignedDecimal rest).map (fun q => -q)
  | '+' :: rest => parseUnsignedDecimal rest
  | _ => parseUnsignedDecimal s

/-! ### Association-list model of `std::collections::HashMap`

Iteration order of a `HashMap` is unspecified; the claims that depend on it
quantify over every association-list order, so an insertion-ordered
association list is a faithful model. -/

/-- `HashMap::insert`: replace the value at an existing key, else append. -/
def mapInsert {κ α : Type} [DecidableEq κ] (k : κ) (v : α) :
    List (κ × α) → List (κ × α)
  | [] => [(k, v)]
  | (k2, v2) :: rest =>
    if k2 = k then (k, v) :: rest else (k2, v2) :: mapInsert k v rest

/-- `HashMap::get`. -/
def mapLookup {κ α : Type} [DecidableEq κ] (k : κ) : List (κ × α) → Option α
  | [] => none
  | (k2, v2) :: rest => if k2 = k then some v2 else mapLookup k rest

/-! ### `audio.rs`: the `pactl` mixer adapter -/

/-- `AudioSinkInput` from `audio.rs`. -/
structure AudioSinkInput where
  index : Nat
  application_name : String
  volume : ℚ
deriving DecidableEq, Repr

/-- Parser state of the line loop in `AudioController::refresh_sink_inputs`. -/
structure SinkParseState where
  acc : List (Nat × AudioSinkInput)
  currentIndex : Option Nat
  currentApp : String
  currentVol : ℚ

/-- Flush the record being accumulated, as done at each `Sink Input #` marker
and once after the loop. -/
def saveCurrent (st : SinkParseState) : List (Nat × AudioSinkInput) :=
  match st.currentIndex with
  | some i => mapInsert i ⟨i, st.currentApp, st.currentVol⟩ st.acc
  | none => st.acc

/-- The `Volume:` line parse: locate `%`, take the token after the last space
before it, parse it as a decimal and divide by 100. -/
def parseVolumeLine (line : List Char) : Option ℚ :=
  match line.findIdx? (fun c => c = '%') with
  | none => none
  | some pos =>
    let beforePercent := line.take pos
    if beforePercent.contains ' ' then
      match parseDecimalChars
          (trimChars ((beforePercent.reverse.takeWhile (fun c => c ≠ ' ')).reverse)) with
      | some percent => some (percent / 100)
      | none => none
    else none

/-- One iteration of the line loop in `refresh_sink_inputs`.  The index parse
keeps Rust's `u32` bound. -/
def processLine (st : SinkParseState) (raw : List Char) : SinkParseState :=
  let line := trimChars raw
  if ("Sink Input #".data).isPrefixOf line then
    let acc := saveCurrent st
    match stripPre ("Sink Input #".data) line with
    | some idxStr =>
      { acc := acc
        currentIndex := (charsToNat? idxStr).filter (fun n => n < 4294967296)
        currentApp := ""
        currentVol := 1 }
    | none => { st with acc := acc }
  else if ("application.name = ".data).isPrefixOf line then
    { st with
      currentApp := ⟨((stripPre ("application.name = \"".data) line).bind
        (fun s => stripSuf ("\"".data) s)).getD []⟩ }
  else if ("Volume:".data).isPrefixOf line then
    match parseVolumeLine line with
    | some v => { st with currentVol := v }
    | none => st
  else st

/-- The whole `pactl list sink-inputs` stdout parse of `refresh_sink_inputs`. -/
def parseSinkInputs (out : List Char) : List (Nat × AudioSinkInput) :=
  saveCurrent ((splitLines out).foldl processLine ⟨[], none, "", 1⟩)

/-- `AudioController::refresh_sink_inputs`.  `listCmd` is the outcome of the
`pactl list sink-inputs` invocation: `none` when spawning the process fails,
otherwise the exit-status flag and the stdout text.  Returns the call result
paired with the sink-input map after the call. -/
def refresh_sink_inputs (listCmd : Option (Bool × String))
    (sinks : List (Nat × AudioSinkInput)) :
    Except String Unit × List (Nat × AudioSinkInput) :=
  match listCmd with
  | none => (Except.error "failed to run pactl", sinks)
  | some (exitOk, out) =>
    if exitOk = false then (Except.error "pactl command failed", sinks)
    else (Except.ok (), parseSinkInputs out.data)

/-- `AudioController::find_sink_input_by_name`: first stream whose lowercased
name contains the lowercased pattern or vice versa, in map iteration order. -/
def find_sink_input_by_name (sinks : List (Nat × AudioSinkInput))
    (app_name_pattern : String) : Option AudioSinkInput :=
  let patternLower := lowerChars app_name_pattern
  (sinks.map Prod.snd).find? (fun si =>
    hasSubstr patternLower (lowerChars si.application_name) ||
    hasSubstr (lowerChars si.application_name) patternLower)

/-- The clamp to `[0.0, 1.5]` in `AudioController::set_sink_input_volume`. -/
def clampVol (v : ℚ) : ℚ := max 0 (min v (3/2))

/-- The integer percentage passed to `pactl set-sink-input-volume`
(`(clamped_volume * 100.0) as u32`). -/
def volumePercent (v : ℚ) : Nat := (Int.floor (clampVol v * 100)).toNat

/-- The mixer-side external world: the current sink-input map, the outcome of
a `pactl list sink-inputs` invocation, and the outcome of
`pactl set-sink-input-volume` as a function of the index and percentage sent
(`none`: spawn failure, `some b`: exit-status flag `b`). -/
structure AudioEnv where
  sinks : List (Nat × AudioSinkInput)
  listCmd : Option (Bool × String)
  setCmd : Nat → Nat → Option Bool

/-- `AudioController::set_sink_input_volume`. -/
def set_sink_input_volume (e : AudioEnv) (index : Nat) (volume : ℚ) :
    Except String Unit :=
  match e.setCmd index (volumePercent volume) with
  | none => Except.error "failed to run pactl"
  | some true => Except.ok ()
  | some false => Except.error "pactl set-sink-input-volume failed"

/-- The sink-input map after a `refresh_sink_inputs` call whose result is
discarded (`let _ = audio_ctrl.refresh_sink_inputs()`). -/
def AudioEnv.afterRefresh (e : AudioEnv) : List (Nat × AudioSinkInput) :=
  (refresh_sink_inputs e.listCmd e.sinks).2

/-! ### `music.rs`: sessions, registry, extraction, aggregation, volume -/

/-- `mpris::PlaybackStatus`. -/
inductive PlaybackStatus where
  | Playing
  | Paused
  | Stopped
deriving DecidableEq, Repr

/-- One MPRIS session as observed through the bus during a tick: the answers
its handle returns for each query made by `music.rs`.  A query that fails on
the bus is a `none`/`false` answer. -/
structure Session where
  busName : String
  identity : String
  metaTitle : Option String
  metaArtists : Option (List String)
  statusResult : Option PlaybackStatus
  volumeResult : Option ℚ
  artUrl : Option String
  setVolumeOk : Bool
deriving DecidableEq, Repr

/-- `DiscoveredPlayer` from `music.rs`. -/
structure DiscoveredPlayer where
  identity : String
  is_active : Bool
deriving DecidableEq, Repr

/-- `PlayerInfo` from `music.rs`. -/
structure PlayerInfo where
  title : String
  artist : String
  status : PlaybackStatus
  volume : ℚ
  art_url : Option String
  bus_name : String
  identity : String
  can_control_volume : Bool
deriving DecidableEq, Repr

/-- `impl Default for PlayerInfo`. -/
def PlayerInfo.default : PlayerInfo :=
  { title := "No music playing"
    artist := ""
    status := PlaybackStatus.Stopped
    volume := 1/2
    art_url := none
    bus_name := ""
    identity := ""
    can_control_volume := true }

/-- The two registry maps of `MusicController`: identity → `DiscoveredPlayer`
and bus name → session handle. -/
structure Registry where
  discovered_players : List (String × DiscoveredPlayer)
  all_players : List (String × Session)
deriving DecidableEq, Repr

/-- The bus-side world of one discovery call: whether `PlayerFinder::new()`
succeeds, and the result of `find_all()` (`none` when the query fails). -/
structure DiscoverEnv where
  finderOk : Bool
  findAll : Option (List Session)

/-- `player.get_playback_status().unwrap_or(Stopped) == Playing`. -/
def sessionIsActive (s : Session) : Bool :=
  s.statusResult.getD PlaybackStatus.Stopped == PlaybackStatus.Playing

/-- `MusicController::discover_all_players`.  Returns the call result paired
with the registry after the call. -/
def discover_all_players (env : DiscoverEnv) (st : Registry) :
    Except String Unit × Registry :=
  if env.finderOk = false then (Except.error "failed to create player finder", st)
  else
    let cleared : Registry := ⟨[], []⟩
    match env.findAll with
    | none => (Except.ok (), cleared)
    | some players =>
      (Except.ok (), players.foldl (fun acc p =>
        ⟨mapInsert p.identity ⟨p.identity, sessionIsActive p⟩ acc.discovered_players,
         mapInsert p.busName p acc.all_players⟩) cleared)

/-- `MusicController::find_specific_player`.  Returns the call result paired
with the selected-player slot after the call. -/
def find_specific_player (env : DiscoverEnv) (current : Option Session)
    (player_name : String) : Except String Unit × Option Session :=
  if env.finderOk = false then (Except.error "failed to create player finder", current)
  else
    match env.findAll with
    | some players =>
      match players.find? (fun p => p.identity = player_name) with
      | some p => (Except.ok (), some p)
      | none => (Except.ok (), none)
    | none => (Except.ok (), none)

/-- The per-session extraction shared by `get_player_info` and the loop body
of `get_all_players_info`: every field defaults when its query fails, and the
volume is overridden by a fuzzy-matched mixer stream when an audio controller
is present (`effSinks = some sinks`). -/
def playerInfoOf (effSinks : Option (List (Nat × AudioSinkInput)))
    (bus : String) (s : Session) : PlayerInfo :=
  { title := s.metaTitle.getD ("Unknown")
    artist := (s.metaArtists.map (fun l => String.intercalate (", ") l)).getD
      ("Unknown Artist")
    status := s.statusResult.getD PlaybackStatus.Stopped
    volume :=
      match effSinks with
      | some sinks =>
        match find_sink_input_by_name sinks s.identity with
        | some sink_input => sink_input.volume
        | none => s.volumeResult.getD (1/2)
      | none => s.volumeResult.getD (1/2)
    art_url := s.artUrl
    bus_name := bus
    identity := s.identity
    can_control_volume := true }

/-- `MusicController::get_player_info`. -/
def get_player_info (player : Option Session) (audio : Option AudioEnv) :
    PlayerInfo :=
  match player with
  | none => PlayerInfo.default
  | some s => playerInfoOf (audio.map AudioEnv.afterRefresh) s.busName s

/-- The status priority used by the Firefox dedup
(Playing = 0, Paused = 1, Stopped = 2). -/
def statusOrder : PlaybackStatus → Nat
  | PlaybackStatus.Playing => 0
  | PlaybackStatus.Paused => 1
  | PlaybackStatus.Stopped => 2

/-- `identity.to_lowercase().contains("firefox")`. -/
def isFirefoxInfo (i : PlayerInfo) : Bool :=
  hasSubstr ("firefox".data) (lowerChars i.identity)

/-- The comparator of the Firefox dedup sort. -/
def statusLe (a b : PlayerInfo) : Prop :=
  statusOrder a.status ≤ statusOrder b.status

instance : DecidableRel statusLe := fun a b =>
  inferInstanceAs (Decidable (statusOrder a.status ≤ statusOrder b.status))

instance : IsTotal PlayerInfo statusLe := ⟨fun a b => Nat.le_total (statusOrder a.status) (statusOrder b.status)⟩

instance : IsTrans PlayerInfo statusLe := ⟨fun _ _ _ h1 h2 => Nat.le_trans h1 h2⟩

/-- The comparator of the final identity sort
(`a.identity.to_lowercase().cmp(&b.identity.to_lowercase())`). -/
def identLe (a b : PlayerInfo) : Prop :=
  lexLe (lowerChars a.identity) (lowerChars b.identity) = true

instance : DecidableRel identLe := fun a b =>
  inferInstanceAs (Decidable (lexLe (lowerChars a.identity) (lowerChars b.identity) = true))

/-- The info list the loop of `get_all_players_info` extracts, in map
iteration order, before the Firefox dedup and the final sort. -/
def extractedInfos (audio : Option AudioEnv)
    (players : List (String × Session)) : List PlayerInfo :=
  players.map (fun p => playerInfoOf (audio.map AudioEnv.afterRefresh) p.1 p.2)

/-- The Firefox dedup of `get_all_players_info`: split off the entries whose
identity contains "firefox", stable-sort them by status priority, and append
only the first of them (if any) to the others. -/
def dedupFirefox (infos : List PlayerInfo) : List PlayerInfo :=
  let firefox_players := infos.filter isFirefoxInfo
  let players_info := infos.filter (fun i => !isFirefoxInfo i)
  match List.insertionSort statusLe firefox_players with
  | [] => players_info
  | f :: _ => players_info ++ [f]

/-- `MusicController::get_all_players_info`. -/
def get_all_players_info (audio : Option AudioEnv)
    (players : List (String × Session)) : List PlayerInfo :=
  List.insertionSort identLe (dedupFirefox (extractedInfos audio players))

/-- The shared body of `set_volume_player` and `set_volume`: try the MPRIS
set first; if it fails and an audio controller exists, refresh the sink
inputs (discarding the result) and set the fuzzy-matched stream, if any. -/
def setVolumeFallback (s : Session) (audio : Option AudioEnv) (volume : ℚ) :
    Except String Unit :=
  if s.setVolumeOk then Except.ok ()
  else
    match audio with
    | none => Except.ok ()
    | some e =>
      match find_sink_input_by_name e.afterRefresh s.identity with
      | some sink_input => set_sink_input_volume e sink_input.index volume
      | none => Except.ok ()

/-- `MusicController::set_volume_player`. -/
def set_volume_player (players : List (String × Session))
    (audio : Option AudioEnv) (bus_name : String) (volume : ℚ) :
    Except String Unit :=
  match mapLookup bus_name players with
  | some s => setVolumeFallback s audio volume
  | none => Except.ok ()

/-- `MusicController::set_volume` (selected-player variant). -/
def set_volume (player : Option Session) (audio : Option AudioEnv)
    (volume : ℚ) : Except String Unit :=
  match player with
  | some s => setVolumeFallback s audio volume
  | none => Except.ok ()

/-! ### `app.rs`: the album-art fetch -/

/-- A canonical filesystem path, as a list of components (the unit in which
`Path::starts_with` compares). -/
abbrev ArtPath := List String

/-- `cosmic::iced::widget::image::Handle::from_bytes`, keeping only the bytes. -/
structure ArtHandle where
  bytes : List Nat
deriving DecidableEq, Repr

/-- `MAX_IMAGE_SIZE` from `load_image_from_url`. -/
def MAX_IMAGE_SIZE : Nat := 10 * 1024 * 1024

/-- The filesystem and network world of one `load_image_from_url` call:
`safeRoots` are the resolved directories of the allow-list built in
`is_safe_album_art_path` (the `dirs::*` results plus `/tmp` and `/var/tmp`),
`canonicalize` and `readFile` model `tokio::fs::canonicalize` and
`tokio::fs::read` (`none` = error), and `fetch` models the `reqwest` GET
(`none` = request or body error). -/
structure FsEnv where
  safeRoots : List ArtPath
  canonicalize : List Char → Option ArtPath
  readFile : ArtPath → Option (List Nat)
  fetch : String → Option (List Nat)

/-- `CosmicAppletMusic::is_safe_album_art_path`:
`safe_prefixes.iter().any(|prefix| path.starts_with(prefix))`. -/
def is_safe_album_art_path (safeRoots : List ArtPath) (path : ArtPath) : Bool :=
  safeRoots.any (fun root => root.isPrefixOf path)

/-- Rust `str::trim_start_matches("file://")`: repeatedly strip the scheme
while it is a prefix.  The character count of the input bounds the number of
strips, so it serves as structural fuel. -/
def trimFileSchemeAux : Nat → List Char → List Char
  | 0, s => s
  | n + 1, s =>
    if ("file://".data).isPrefixOf s then trimFileSchemeAux n (s.drop 7) else s

/-- `url.trim_start_matches("file://")`. -/
def trimFileScheme (s : List Char) : List Char := trimFileSchemeAux s.length s

/-- `CosmicAppletMusic::load_image_from_url`.  The second component records
the canonical paths whose contents were read (`tokio::fs::read` calls), so
"no file read attempted" is observable in the model. -/
def load_image_from_url (env : FsEnv) (url : String) :
    Option ArtHandle × List ArtPath :=
  if ("file://".data).isPrefixOf url.data then
    match env.canonicalize (trimFileScheme url.data) with
    | none => (none, [])
    | some canonical =>
      if is_safe_album_art_path env.safeRoots canonical = false then (none, [])
      else
        match env.readFile canonical with
        | some bytes =>
          if bytes.length > MAX_IMAGE_SIZE then (none, [canonical])
          else (some ⟨bytes⟩, [canonical])
        | none => (none, [canonical])
  else if ("http://".data).isPrefixOf url.data || ("https://".data).isPrefixOf url.data then
    match env.fetch url with
    | some bytes =>
      if bytes.length > MAX_IMAGE_SIZE then (none, []) else (some ⟨bytes⟩, [])
    | none => (none, [])
  else (none, [])

/-! ### Order lemmas for the two sort comparators -/

theorem lexLe_total : ∀ as bs : List Char, lexLe as bs = true ∨ lexLe bs as = true
  | [], _ => Or.inl rfl
  | _ :: _, [] => Or.inr rfl
  | a :: as, b :: bs => by
    simp only [lexLe]
    rcases Nat.lt_trichotomy a.toNat b.toNat with h | h | h
    · left
      simp [h]
    · simp [h, Nat.lt_irrefl]
      exact lexLe_total as bs
    · right
      simp [h]

theorem lexLe_trans : ∀ as bs cs : List Char,
    lexLe as bs = true → lexLe bs cs = true → lexLe as cs = true
  | [], _, _, _, _ => rfl
  | _ :: _, [], _, h1, _ => by simp [lexLe] at h1
  | _ :: _, _ :: _, [], _, h2 => by simp [lexLe] at h2
  | a :: as, b :: bs, c :: cs, h1, h2 => by
    simp only [lexLe] at h1 h2 ⊢
    split_ifs at h1 h2 ⊢ <;>
      first
        | rfl
        | omega
        | (exact lexLe_trans as bs cs h1 h2)

instance : IsTotal PlayerInfo identLe :=
  ⟨fun a b => lexLe_total (lowerChars a.identity) (lowerChars b.identity)⟩

instance : IsTrans PlayerInfo identLe := ⟨fun _ _ _ h1 h2 => lexLe_trans _ _ _ h1 h2⟩

/-! ### The claims -/

/-- C2: for every input session map, regardless of its iteration order, the
list returned by `get_all_players_info` is sorted by case-insensitively
compared identity, ascending. -/
theorem get_all_players_info_sorted_by_identity
    (audio : Option AudioEnv) (players : List (String × Session)) :
    List.Sorted identLe (get_all_players_info audio players) :=
  List.sorted_insertionSort identLe _

/-- C10: when the mixer listing command exits with a nonzero status,
`refresh_sink_inputs` returns an error and the index-to-record map is exactly
what it was before the call. -/
theorem refresh_sink_inputs_failure_preserves_map (out : String)
    (sinks : List (Nat × AudioSinkInput)) :
    refresh_sink_inputs (some (false, out)) sinks =
      (Except.error "pactl command failed", sinks) := rfl

/-- C7: for every index and every target volume above 1.5,
`set_sink_input_volume` behaves identically to a call with target 1.5: the
clamp yields the same value, the same integer percentage is sent, and the
result is the same. -/
theorem set_sink_input_volume_clamped_above (e : AudioEnv) (index : Nat)
    (v : ℚ) (h : (3/2 : ℚ) < v) :
    volumePercent v = volumePercent (3/2) ∧
    set_sink_input_volume e index v = set_sink_input_volume e index (3/2) := by
  have hc : clampVol v = clampVol (3/2) := by
    unfold clampVol
    rw [min_eq_right h.le, min_eq_right (le_refl ((3:ℚ)/2))]
  refine ⟨?_, ?_⟩
  · unfold volumePercent
    rw [hc]
  · unfold set_sink_input_volume volumePercent
    rw [hc]

theorem set_sink_input_volume_clamped_above_witness :
    volumePercent 2 = volumePercent (3/2) ∧
    set_sink_input_volume ⟨[], none, fun _ _ => some true⟩ 0 2 =
      set_sink_input_volume ⟨[], none, fun _ _ => some true⟩ 0 (3/2) :=
  set_sink_input_volume_clamped_above ⟨[], none, fun _ _ => some true⟩ 0 2
    (by norm_num)

/-- C6: when the player finder is created but the enumeration query fails,
the discovery pass leaves both registry maps empty rather than one stale and
one fresh. -/
theorem discover_enumeration_failure_clears_both (env : DiscoverEnv)
    (st : Registry) (hok : env.finderOk = true) (hfail : env.findAll = none) :
    discover_all_players env st = (Except.ok (), ⟨[], []⟩) := by
  simp [discover_all_players, hok, hfail]

/-- A concrete nonempty registry used to instantiate the discovery claims. -/
def registry0 : Registry :=
  ⟨[("Spotify", ⟨"Spotify", true⟩)],
   [("spotify.instance",
     ⟨"spotify.instance", "Spotify", none, none, some PlaybackStatus.Playing,
      some 1, none, true⟩)]⟩

theorem discover_enumeration_failure_clears_both_witness :
    discover_all_players ⟨true, none⟩ registry0 = (Except.ok (), ⟨[], []⟩) :=
  discover_enumeration_failure_clears_both ⟨true, none⟩ registry0 rfl rfl

/-- C5 counterexample: on an input where the discovery query (`find_all`)
fails, `discover_all_players` does not leave the prior registry untouched and
does not return an error: it clears both maps and reports success. -/
theorem discover_query_failure_counterexample :
    (⟨true, none⟩ : DiscoverEnv).findAll = none ∧
    discover_all_players ⟨true, none⟩ registry0 = (Except.ok (), ⟨[], []⟩) ∧
    (discover_all_players ⟨true, none⟩ registry0).2 ≠ registry0 := by
  refine ⟨rfl, rfl, ?_⟩
  intro h
  have := congrArg Registry.discovered_players h
  simp [discover_all_players, registry0] at this

/-- C5 amended: when creating the player finder fails, the registry is left
untouched and an error is returned; when the finder is created but the
enumeration query itself fails, both maps are cleared to empty and success is
returned. -/
theorem discover_all_players_failure_behavior (env : DiscoverEnv)
    (st : Registry) :
    (env.finderOk = false →
      discover_all_players env st =
        (Except.error "failed to create player finder", st)) ∧
    (env.finderOk = true → env.findAll = none →
      discover_all_players env st = (Except.ok (), ⟨[], []⟩)) := by
  refine ⟨fun h => ?_, fun h1 h2 => ?_⟩
  · simp [discover_all_players, h]
  · simp [discover_all_players, h1, h2]

theorem discover_all_players_failure_behavior_witness :
    discover_all_players ⟨false, none⟩ registry0 =
      (Except.error "failed to create player finder", registry0) ∧
    discover_all_players ⟨true, none⟩ registry0 = (Except.ok (), ⟨[], []⟩) :=
  ⟨(discover_all_players_failure_behavior ⟨false, none⟩ registry0).1 rfl,
   (discover_all_players_failure_behavior ⟨true, none⟩ registry0).2 rfl rfl⟩

/-- C8: `find_specific_player` scans a fresh full enumeration, and when no
session's identity equals the requested name exactly, the selected-session
slot is cleared to `none` rather than left at its previous value. -/
theorem find_specific_player_clears_on_miss (env : DiscoverEnv)
    (current : Option Session) (player_name : String) (l : List Session)
    (hok : env.finderOk = true) (hall : env.findAll = some l)
    (hmiss : ∀ p ∈ l, p.identity ≠ player_name) :
    find_specific_player env current player_name = (Except.ok (), none) := by
  have hfind : l.find? (fun p => decide (p.identity = player_name)) = none := by
    rw [List.find?_eq_none]
    intro x hx
    simp only [decide_eq_true_eq]
    exact hmiss x hx
  simp [find_specific_player, hok, hall, hfind]

theorem find_specific_player_clears_on_miss_witness :
    find_specific_player
      ⟨true, some [⟨"spotify.instance", "Spotify", none, none,
        some PlaybackStatus.Playing, some 1, none, true⟩]⟩
      (some ⟨"spotify.instance", "Spotify", none, none,
        some PlaybackStatus.Playing, some 1, none, true⟩)
      "Firefox" = (Except.ok (), none) :=
  find_specific_player_clears_on_miss _ _ "Firefox" _ rfl rfl (by decide)

/-- C3: for a session whose native MPRIS set-volume call fails and whose
identity fuzzy-matches no mixer stream, both `set_volume_player` and
`set_volume` return success: the call is a silent no-op, never an error. -/
theorem set_volume_silent_noop
    (players : List (String × Session)) (bus_name : String) (s : Session)
    (e : AudioEnv) (v : ℚ)
    (hlookup : mapLookup bus_name players = some s)
    (hnative : s.setVolumeOk = false)
    (hfind : find_sink_input_by_name e.afterRefresh s.identity = none) :
    set_volume_player players (some e) bus_name v = Except.ok () ∧
    set_volume (some s) (some e) v = Except.ok () := by
  have hfb : setVolumeFallback s (some e) v = Except.ok () := by
    simp [setVolumeFallback, hnative, hfind]
  exact ⟨by simp [set_volume_player, hlookup, hfb], by simp [set_volume, hfb]⟩

/-- A session whose native volume write fails, for the C3 witness. -/
def sessionNoNative : Session :=
  ⟨"vlc.instance", "VLC media player", none, none, some PlaybackStatus.Paused,
   none, none, false⟩

theorem set_volume_silent_noop_witness :
    set_volume_player [("vlc.instance", sessionNoNative)]
      (some ⟨[], none, fun _ _ => some true⟩) "vlc.instance" 1 = Except.ok () ∧
    set_volume (some sessionNoNative)
      (some ⟨[], none, fun _ _ => some true⟩) 1 = Except.ok () :=
  set_volume_silent_noop [("vlc.instance", sessionNoNative)] "vlc.instance"
    sessionNoNative ⟨[], none, fun _ _ => some true⟩ 1
    (by decide) (by decide) (by decide)

/-- C4: when a mixer stream fuzzy-matches the session identity
(case-insensitive substring in either direction), the extractor reports that
stream's volume; the native volume value is discarded even when the native
read succeeded. -/
theorem mixer_volume_overrides_native (s : Session) (e : AudioEnv)
    (sink_input : AudioSinkInput)
    (hfind : find_sink_input_by_name e.afterRefresh s.identity =
      some sink_input) :
    (get_player_info (some s) (some e)).volume = sink_input.volume := by
  simp [get_player_info, playerInfoOf, hfind]

/-- A session whose native volume read succeeded with 1/4, for the C4
witness; the mixer match must still win. -/
def sessionNativeVol : Session :=
  ⟨"firefox.instance", "Firefox", none, none, some PlaybackStatus.Playing,
   some (1/4), none, true⟩

theorem mixer_volume_overrides_native_witness :
    (get_player_info (some sessionNativeVol)
      (some ⟨[(7, ⟨7, "Firefox", 1⟩)], none, fun _ _ => some true⟩)).volume =
      (1 : ℚ) :=
  mixer_volume_overrides_native sessionNativeVol
    ⟨[(7, ⟨7, "Firefox", 1⟩)], none, fun _ _ => some true⟩
    ⟨7, "Firefox", 1⟩ (by decide)

/-- C9: a `file://` album-art URL whose canonicalized path lies outside the
allow-list of known-safe directories is rejected: the fetch returns no art
and reads no file contents. -/
theorem art_fetch_rejects_unsafe (env : FsEnv) (url : String) (p : ArtPath)
    (hfile : ("file://".data).isPrefixOf url.data = true)
    (hcanon : env.canonicalize (trimFileScheme url.data) = some p)
    (hblocked : is_safe_album_art_path env.safeRoots p = false) :
    load_image_from_url env url = (none, []) := by
  simp [load_image_from_url, hfile, hcanon, hblocked]

/-- A filesystem world where `/etc/passwd` exists and is readable, and the
allow-list holds only `/tmp` and `/var/tmp`, for the C9 witness. -/
def fsEnvPasswd : FsEnv :=
  ⟨[["tmp"], ["var", "tmp"]],
   fun raw => if raw = ("/etc/passwd".data) then some ["etc", "passwd"] else none,
   fun _ => some [0],
   fun _ => none⟩

theorem art_fetch_rejects_unsafe_witness :
    load_image_from_url fsEnvPasswd "file:///etc/passwd" = (none, []) :=
  art_fetch_rejects_unsafe fsEnvPasswd "file:///etc/passwd" ["etc", "passwd"]
    (by decide) (by decide) (by decide)

/-- C1: whenever the extracted info list holds at least two Firefox-identified
entries with distinct playback statuses, `get_all_players_info` returns
exactly one Firefox-identified entry, and its status is the minimum of the
Firefox entries' statuses under the priority Playing < Paused < Stopped. -/
theorem firefox_dedup_one_min_entry (audio : Option AudioEnv)
    (players : List (String × Session))
    (h2 : 2 ≤ ((extractedInfos audio players).filter isFirefoxInfo).length)
    (_hdist : ∃ a ∈ (extractedInfos audio players).filter isFirefoxInfo,
             ∃ b ∈ (extractedInfos audio players).filter isFirefoxInfo,
             a.status ≠ b.status) :
    ((get_all_players_info audio players).filter isFirefoxInfo).length = 1 ∧
    ∀ f ∈ get_all_players_info audio players, isFirefoxInfo f = true →
      f.status ∈
        ((extractedInfos audio players).filter isFirefoxInfo).map
          PlayerInfo.status ∧
      ∀ g ∈ (extractedInfos audio players).filter isFirefoxInfo,
        statusOrder f.status ≤ statusOrder g.status := by
  obtain ⟨f0, tail, hs⟩ : ∃ f0 tail,
      List.insertionSort statusLe
        ((extractedInfos audio players).filter isFirefoxInfo) = f0 :: tail := by
    cases hval : List.insertionSort statusLe
        ((extractedInfos audio players).filter isFirefoxInfo) with
    | nil =>
      exfalso
      have hp := List.perm_insertionSort statusLe
        ((extractedInfos audio players).filter isFirefoxInfo)
      rw [hval] at hp
      rw [hp.symm.eq_nil] at h2
      simp at h2
    | cons f0 tail => exact ⟨f0, tail, rfl⟩
  have hf0mem : f0 ∈ (extractedInfos audio players).filter isFirefoxInfo := by
    have hp := List.perm_insertionSort statusLe
      ((extractedInfos audio players).filter isFirefoxInfo)
    rw [hs] at hp
    exact hp.mem_iff.mp (List.mem_cons_self f0 tail)
  have hf0ff : isFirefoxInfo f0 = true := (List.mem_filter.mp hf0mem).2
  have hmin : ∀ g ∈ (extractedInfos audio players).filter isFirefoxInfo,
      statusOrder f0.status ≤ statusOrder g.status := by
    intro g hg
    have hp := List.perm_insertionSort statusLe
      ((extractedInfos audio players).filter isFirefoxInfo)
    rw [hs] at hp
    rcases List.mem_cons.mp (hp.mem_iff.mpr hg) with h | h
    · rw [h]
    · have hsorted := List.sorted_insertionSort statusLe
        ((extractedInfos audio players).filter isFirefoxInfo)
      rw [hs] at hsorted
      exact List.rel_of_sorted_cons hsorted g h
  have hded : dedupFirefox (extractedInfos audio players) =
      (extractedInfos audio players).filter (fun i => !isFirefoxInfo i) ++
        [f0] := by
    simp only [dedupFirefox]
    rw [hs]
  have hpf : List.Perm (get_all_players_info audio players)
      ((extractedInfos audio players).filter (fun i => !isFirefoxInfo i) ++
        [f0]) := by
    unfold get_all_players_info
    rw [← hded]
    exact List.perm_insertionSort identLe _
  have hothers : ((extractedInfos audio players).filter
      (fun i => !isFirefoxInfo i)).filter isFirefoxInfo = [] := by
    rw [List.filter_eq_nil_iff]
    intro a ha
    have hna := (List.mem_filter.mp ha).2
    simp only [Bool.not_eq_true'] at hna
    simp [hna]
  have hlen : ((get_all_players_info audio players).filter
      isFirefoxInfo).length = 1 := by
    have hl := (hpf.filter isFirefoxInfo).length_eq
    rw [List.filter_append, hothers, List.nil_append] at hl
    rw [hl]
    simp [hf0ff]
  refine ⟨hlen, fun f hf hfff => ?_⟩
  have hfeq : f = f0 := by
    rcases List.mem_append.mp (hpf.mem_iff.mp hf) with h | h
    · exfalso
      have hna := (List.mem_filter.mp h).2
      rw [hfff] at hna
      simp at hna
    · simpa using h
  rw [hfeq]
  exact ⟨List.mem_map_of_mem PlayerInfo.status hf0mem, hmin⟩

/-- Two Firefox tabs (Paused and Playing) for the C1 witness. -/
def firefoxTabA : Session :=
  ⟨"firefox.instance_a", "Firefox", none, none, some PlaybackStatus.Paused,
   none, none, true⟩

/-- Second Firefox tab for the C1 witness. -/
def firefoxTabB : Session :=
  ⟨"firefox.instance_b", "Firefox", none, none, some PlaybackStatus.Playing,
   none, none, true⟩

/-- The session map of the C1 witness. -/
def firefoxPlayers : List (String × Session) :=
  [("firefox.instance_a", firefoxTabA), ("firefox.instance_b", firefoxTabB)]

theorem firefox_dedup_one_min_entry_witness :
    ((get_all_players_info none firefoxPlayers).filter isFirefoxInfo).length
      = 1 ∧
    ∀ f ∈ get_all_players_info none firefoxPlayers, isFirefoxInfo f = true →
      f.status ∈
        ((extractedInfos none firefoxPlayers).filter isFirefoxInfo).map
          PlayerInfo.status ∧
      ∀ g ∈ (extractedInfos none firefoxPlayers).filter isFirefoxInfo,
        statusOrder f.status ≤ statusOrder g.status :=
  firefox_dedup_one_min_entry none firefoxPlayers (by decide) (by decide)
